import Mathlib

/-!
Shallow embedding of `src/liquid_handling_protocols/opentrons_compass_pattern.py`.

The script drives an Opentrons OT-2 liquid handler: for each entry of a
transfer list it picks up a tip (consumed in order from `TIPRACK_TIPS`),
moves to the source well, runs a five-point compass mix there, aspirates,
travels to the destination plate, dispenses, and drops the tip; after the
loop it homes the instrument.

The embedding models the hardware-capability calls (`pick_up_tip`,
`move_to`, `mix`, `set_offset`, `aspirate`, `dispense`, `drop_tip`,
`home`) as an emitted list of `Event`s, in exactly the order the script
issues them.  The tip iterator (`iter(TIPRACK_TIPS)` consumed by
`next(...)`) is modelled by recursion on the tip list; exhaustion of the
iterator (Python `StopIteration`, the spec's `TipExhaustedError`) aborts
the run, returning the trace of events issued so far together with the
error.  Millimetre and microlitre quantities are rationals.
-/

namespace CompassPattern

/-- The two plates loaded by the script: `source_plate` (deck slot 1) and
`destination_plate` (deck slot 2). -/
inductive Plate
  | source
  | dest
  deriving DecidableEq

/-- A vertical reference into a well, as produced by the Opentrons API
calls `well.top(mm)` and `well.bottom(mm)`; `bottom()` with no argument is
`bottom 0`. -/
inductive WellPos
  | top (mm : ℚ)
  | bottom (mm : ℚ)
  deriving DecidableEq

/-- One entry of the `TRANSFERS` constant:
`{"source_well": .., "dest_well": .., "volume_ul": ..}`. -/
structure Transfer where
  source_well : String
  dest_well : String
  volume_ul : ℚ
  deriving DecidableEq

/-- The `MIX_PARAMS` dictionary of the script. -/
structure MixParams where
  volume : ℚ
  num_mixes_at_each_point : ℕ
  mm_from_center : ℚ
  mm_from_bottom : ℚ
  mix_rate : ℚ
  deriving DecidableEq

/-- One hardware-capability call issued by the script, with its arguments.
`mix reps vol p w pos rate` is `pipette.mix(reps, vol, p[w].pos, rate=rate)`;
`setOffset p x y z` is `p.set_offset(x=x, y=y, z=z)`; the rest are direct. -/
inductive Event
  | pickUpTip (tip : String)
  | moveTo (p : Plate) (well : String) (pos : WellPos)
  | mix (reps : ℕ) (volume : ℚ) (p : Plate) (well : String) (pos : WellPos) (rate : ℚ)
  | setOffset (p : Plate) (x y z : ℚ)
  | aspirate (volume : ℚ) (p : Plate) (well : String) (pos : WellPos)
  | dispense (volume : ℚ) (p : Plate) (well : String) (pos : WellPos)
  | dropTip
  | home
  deriving DecidableEq

/-- The `TRANSFERS` constant of the script: A1→A1 and B1→B1, 1000 µL each. -/
def TRANSFERS : List Transfer :=
  [⟨"A1", "A1", 1000⟩, ⟨"B1", "B1", 1000⟩]

/-- The `MIX_PARAMS` constant of the script: volume 1000, 3 mixes per point,
7.5 mm from center, 2.5 mm from bottom, rate 5.5. -/
def MIX_PARAMS : MixParams :=
  ⟨1000, 3, 7.5, 2.5, 5.5⟩

/-- The `TIPRACK_TIPS` constant of the script: tips consumed in order. -/
def TIPRACK_TIPS : List String :=
  ["A1", "B1"]

/-- The body of `compass_mix_pattern(plate, well, num_mixes_at_each_point,
mm_from_center, volume, mm_from_bottom, mix_rate)`, call for call: mix at
center, then `set_offset`/mix for north, south, east, west, then reset the
offset to `(0, 0, 0)`. -/
def compass_mix_pattern (plate : Plate) (well : String)
    (num_mixes_at_each_point : ℕ) (mm_from_center volume mm_from_bottom mix_rate : ℚ) :
    List Event :=
  [ Event.mix num_mixes_at_each_point volume plate well (WellPos.bottom mm_from_bottom) mix_rate,
    Event.setOffset plate 0 mm_from_center 0,
    Event.mix num_mixes_at_each_point volume plate well (WellPos.bottom mm_from_bottom) mix_rate,
    Event.setOffset plate 0 (0 - mm_from_center) 0,
    Event.mix num_mixes_at_each_point volume plate well (WellPos.bottom mm_from_bottom) mix_rate,
    Event.setOffset plate mm_from_center 0 0,
    Event.mix num_mixes_at_each_point volume plate well (WellPos.bottom mm_from_bottom) mix_rate,
    Event.setOffset plate (0 - mm_from_center) 0 0,
    Event.mix num_mixes_at_each_point volume plate well (WellPos.bottom mm_from_bottom) mix_rate,
    Event.setOffset plate 0 0 0 ]

/-- The body of the `for transfer in TRANSFERS:` loop of `run`, for one
transfer with its tip, call for call: `pick_up_tip`, move to
`source_plate[source_well].top(2)`, the compass mix at the source well,
`aspirate` at `source_plate[source_well].bottom()`, move to
`source_plate[dest_well].top(2)` (as written in the source: the
destination label resolved on the source plate), move to
`destination_plate[dest_well].top(40)`, `dispense` at
`destination_plate[dest_well].bottom()`, move to
`destination_plate[dest_well].top(40)`, `drop_tip`. -/
def transferBlock (t : Transfer) (tip : String) (mp : MixParams) : List Event :=
  Event.pickUpTip tip ::
  Event.moveTo Plate.source t.source_well (WellPos.top 2) ::
  compass_mix_pattern Plate.source t.source_well mp.num_mixes_at_each_point
      mp.mm_from_center mp.volume mp.mm_from_bottom mp.mix_rate ++
  [ Event.aspirate t.volume_ul Plate.source t.source_well (WellPos.bottom 0),
    Event.moveTo Plate.source t.dest_well (WellPos.top 2),
    Event.moveTo Plate.dest t.dest_well (WellPos.top 40),
    Event.dispense t.volume_ul Plate.dest t.dest_well (WellPos.bottom 0),
    Event.moveTo Plate.dest t.dest_well (WellPos.top 40),
    Event.dropTip ]

/-- Abstract run abort: the tip iterator was exhausted at the head of a
loop iteration (Python `StopIteration` from `next(tips_to_consume)`; the
spec's `TipExhaustedError`). -/
inductive RunError
  | tipExhausted
  deriving DecidableEq

/-- The transfer loop of `run`: each iteration first draws the next tip
from the iterator and aborts there when it is exhausted, otherwise emits
the iteration's events and continues.  Returns the events issued so far
together with the error, if any. -/
def runLoop (mp : MixParams) : List Transfer → List String → List Event × Option RunError
  | [], _ => ([], none)
  | _ :: _, [] => ([], some RunError.tipExhausted)
  | t :: ts, tip :: tips =>
    let rest := runLoop mp ts tips
    (transferBlock t tip mp ++ rest.1, rest.2)

/-- The `run(protocol)` function, parameterised by the configuration
constants: the transfer loop, then `protocol.home()` on the failure-free
path.  On abort the partial trace is returned with the error and `home`
is never reached. -/
def run (transfers : List Transfer) (tips : List String) (mp : MixParams) :
    List Event × Option RunError :=
  let r := runLoop mp transfers tips
  match r.2 with
  | none => (r.1 ++ [Event.home], none)
  | some e => (r.1, some e)

/-!
Offset-frame state.  `set_offset` mutates a plate's shared spatial frame;
each plate starts with a zero frame.  We annotate a trace with the frame
in effect when each event is issued.
-/

/-- The offset frames of the two plates, each an `(x, y, z)` triple. -/
structure Frames where
  src : ℚ × ℚ × ℚ
  dst : ℚ × ℚ × ℚ
  deriving DecidableEq

/-- Frame of one plate. -/
def Frames.get (f : Frames) : Plate → ℚ × ℚ × ℚ
  | Plate.source => f.src
  | Plate.dest => f.dst

/-- Both frames at `(0, 0, 0)`: the state before any `set_offset`. -/
def zeroFrames : Frames :=
  ⟨(0, 0, 0), (0, 0, 0)⟩

/-- Effect of one issued event on the offset frames: `setOffset` overwrites
the named plate's frame; every other call leaves the frames unchanged. -/
def stepFrame (f : Frames) : Event → Frames
  | Event.setOffset Plate.source x y z => ⟨(x, y, z), f.dst⟩
  | Event.setOffset Plate.dest x y z => ⟨f.src, (x, y, z)⟩
  | _ => f

/-- Frames after issuing a list of events from state `f`. -/
def framesAfter (f : Frames) (evs : List Event) : Frames :=
  evs.foldl stepFrame f

/-- The frame of the mixed-on plate in effect at each `mix` event of a
trace, in trace order, starting from frame state `f`: the physical offset
at which each mix is performed. -/
def mixOffsetsFrom (f : Frames) : List Event → List (ℚ × ℚ × ℚ)
  | [] => []
  | Event.mix _ _ p _ _ _ :: es => f.get p :: mixOffsetsFrom f es
  | e :: es => mixOffsetsFrom (stepFrame f e) es

/-- Checks that every `aspirate` and `dispense` of the trace is issued
while its plate's offset frame is `(0, 0, 0)`, starting from frame state
`f`. -/
def liquidAtZeroOffset (f : Frames) : List Event → Bool
  | [] => true
  | e :: es =>
    (match e with
     | Event.aspirate _ p _ _ => decide (f.get p = (0, 0, 0))
     | Event.dispense _ p _ _ => decide (f.get p = (0, 0, 0))
     | _ => true) && liquidAtZeroOffset (stepFrame f e) es

/-- Checks that the destination plate's frame is `(0, 0, 0)` when every
event of the trace is issued, starting from frame state `f`. -/
def destFrameZero (f : Frames) : List Event → Bool
  | [] => true
  | e :: es => decide (f.dst = (0, 0, 0)) && destFrameZero (stepFrame f e) es

/-!
Trace observations.
-/

/-- The tips picked up along a trace, in order. -/
def pickUps (evs : List Event) : List String :=
  evs.filterMap fun e =>
    match e with
    | Event.pickUpTip tip => some tip
    | _ => none

/-- Whether an event is a `mix` call. -/
def isMix : Event → Bool
  | Event.mix _ _ _ _ _ _ => true
  | _ => false

/-- Whether an event is an `aspirate` call. -/
def isAspirate : Event → Bool
  | Event.aspirate _ _ _ _ => true
  | _ => false

/-- Whether an event is a `dispense` call. -/
def isDispense : Event → Bool
  | Event.dispense _ _ _ _ => true
  | _ => false

/-- Number of `mix` calls in a trace. -/
def countMix (evs : List Event) : ℕ :=
  (evs.filter isMix).length

/-- Total number of aspirate/dispense mixing cycles in a trace: the sum of
the repetition counts of its `mix` calls. -/
def mixActionCount (evs : List Event) : ℕ :=
  (evs.map fun e =>
    match e with
    | Event.mix reps _ _ _ _ _ => reps
    | _ => 0).sum

/-- Number of `dispense` calls in a trace. -/
def countDispense (evs : List Event) : ℕ :=
  (evs.filter isDispense).length

/-- Number of `drop_tip` calls in a trace. -/
def countDrop (evs : List Event) : ℕ :=
  (evs.filter fun e => e = Event.dropTip).length

/-- Number of `home` calls in a trace. -/
def countHome (evs : List Event) : ℕ :=
  (evs.filter fun e => e = Event.home).length

/-- Checks that no `set_offset` of the trace targets the given plate. -/
def noOffsetOn (p : Plate) (evs : List Event) : Bool :=
  evs.all fun e =>
    match e with
    | Event.setOffset q _ _ _ => decide (q ≠ p)
    | _ => true

/-- Checks that every `aspirate` of the trace targets the bottom of a well
of the source plate with zero vertical offset. -/
def aspiratesAtSourceBottomZero (evs : List Event) : Bool :=
  evs.all fun e =>
    match e with
    | Event.aspirate _ p _ pos => decide (p = Plate.source ∧ pos = WellPos.bottom 0)
    | _ => true

/-- Checks that every `mix` of the trace is performed `d` millimetres from
the bottom of its well. -/
def mixesAtDepth (d : ℚ) (evs : List Event) : Bool :=
  evs.all fun e =>
    match e with
    | Event.mix _ _ _ _ pos _ => decide (pos = WellPos.bottom d)
    | _ => true

/-!
Structural lemmas about the run.
-/

/-- Trace of a list of (transfer, tip) pairs, each contributing its
loop-iteration events. -/
def blocks (mp : MixParams) (ps : List (Transfer × String)) : List Event :=
  (ps.map fun p => transferBlock p.1 p.2 mp).flatten

theorem blocks_nil (mp : MixParams) : blocks mp [] = [] := rfl

theorem blocks_cons (mp : MixParams) (p : Transfer × String) (ps : List (Transfer × String)) :
    blocks mp (p :: ps) = transferBlock p.1 p.2 mp ++ blocks mp ps := by
  simp [blocks]

theorem runLoop_eq (mp : MixParams) :
    ∀ (transfers : List Transfer) (tips : List String),
      runLoop mp transfers tips =
        (blocks mp (transfers.zip tips),
         if transfers.length ≤ tips.length then none else some RunError.tipExhausted)
  | [], tips => by simp [runLoop, blocks]
  | _ :: _, [] => by simp [runLoop, blocks]
  | t :: ts, tip :: tips => by
    simp [runLoop, runLoop_eq mp ts tips, blocks_cons, Nat.succ_le_succ_iff]

/-- Closed form of the run: with enough tips, the trace is the blocks of
the zipped transfer/tip lists followed by `home`; otherwise the blocks of
the first `tips.length` transfers, with a tip-exhaustion abort. -/
theorem run_eq (transfers : List Transfer) (tips : List String) (mp : MixParams) :
    run transfers tips mp =
      if transfers.length ≤ tips.length
      then (blocks mp (transfers.zip tips) ++ [Event.home], none)
      else (blocks mp (transfers.zip tips), some RunError.tipExhausted) := by
  by_cases h : transfers.length ≤ tips.length <;>
    simp [run, runLoop_eq, h]

theorem map_snd_zip_take :
    ∀ (l₁ : List Transfer) (l₂ : List String),
      (l₁.zip l₂).map Prod.snd = l₂.take l₁.length
  | [], _ => by simp
  | _ :: _, [] => by simp
  | _ :: ts, tip :: tips => by
    simp [map_snd_zip_take ts tips]

/-!
Per-block facts.
-/

theorem pickUps_append (xs ys : List Event) :
    pickUps (xs ++ ys) = pickUps xs ++ pickUps ys := by
  simp [pickUps]

theorem pickUps_transferBlock (t : Transfer) (tip : String) (mp : MixParams) :
    pickUps (transferBlock t tip mp) = [tip] := by
  simp [transferBlock, compass_mix_pattern, pickUps]

theorem pickUps_blocks (mp : MixParams) :
    ∀ ps : List (Transfer × String), pickUps (blocks mp ps) = ps.map Prod.snd
  | [] => by simp [blocks, pickUps]
  | p :: ps => by
    simp [blocks_cons, pickUps_append, pickUps_transferBlock, pickUps_blocks mp ps]

theorem countHome_append (xs ys : List Event) :
    countHome (xs ++ ys) = countHome xs + countHome ys := by
  simp [countHome]

theorem countHome_transferBlock (t : Transfer) (tip : String) (mp : MixParams) :
    countHome (transferBlock t tip mp) = 0 := by
  simp [transferBlock, compass_mix_pattern, countHome, List.filter]

theorem countHome_blocks (mp : MixParams) :
    ∀ ps : List (Transfer × String), countHome (blocks mp ps) = 0
  | [] => by simp [blocks, countHome]
  | p :: ps => by
    simp [blocks_cons, countHome_append, countHome_transferBlock, countHome_blocks mp ps]

theorem framesAfter_transferBlock (t : Transfer) (tip : String) (mp : MixParams) (f : Frames) :
    framesAfter f (transferBlock t tip mp) = ⟨(0, 0, 0), f.dst⟩ := by
  simp [transferBlock, compass_mix_pattern, framesAfter, stepFrame]

theorem liquidAtZeroOffset_transferBlock (t : Transfer) (tip : String) (mp : MixParams)
    (f : Frames) (hdst : f.dst = (0, 0, 0)) :
    liquidAtZeroOffset f (transferBlock t tip mp) = true := by
  simp [transferBlock, compass_mix_pattern, liquidAtZeroOffset, stepFrame, Frames.get, hdst]

theorem destFrameZero_transferBlock (t : Transfer) (tip : String) (mp : MixParams)
    (f : Frames) (hdst : f.dst = (0, 0, 0)) :
    destFrameZero f (transferBlock t tip mp) = true := by
  simp [transferBlock, compass_mix_pattern, destFrameZero, stepFrame, hdst]

theorem noOffsetOn_dest_transferBlock (t : Transfer) (tip : String) (mp : MixParams) :
    noOffsetOn Plate.dest (transferBlock t tip mp) = true := by
  simp [transferBlock, compass_mix_pattern, noOffsetOn]

theorem aspirates_transferBlock (t : Transfer) (tip : String) (mp : MixParams) :
    (transferBlock t tip mp).filter isAspirate =
      [Event.aspirate t.volume_ul Plate.source t.source_well (WellPos.bottom 0)] := by
  simp [transferBlock, compass_mix_pattern, isAspirate, List.filter]

theorem aspiratesAtSourceBottomZero_transferBlock (t : Transfer) (tip : String) (mp : MixParams) :
    aspiratesAtSourceBottomZero (transferBlock t tip mp) = true := by
  simp [transferBlock, compass_mix_pattern, aspiratesAtSourceBottomZero]

theorem mixesAtDepth_transferBlock (t : Transfer) (tip : String) (mp : MixParams) :
    mixesAtDepth mp.mm_from_bottom (transferBlock t tip mp) = true := by
  simp [transferBlock, compass_mix_pattern, mixesAtDepth]

/-!
Lifting the per-block facts over whole traces.
-/

theorem framesAfter_append (f : Frames) (xs ys : List Event) :
    framesAfter f (xs ++ ys) = framesAfter (framesAfter f xs) ys := by
  simp [framesAfter]

theorem liquidAtZeroOffset_append (f : Frames) (xs ys : List Event) :
    liquidAtZeroOffset f (xs ++ ys) =
      (liquidAtZeroOffset f xs && liquidAtZeroOffset (framesAfter f xs) ys) := by
  induction xs generalizing f with
  | nil => simp [liquidAtZeroOffset, framesAfter]
  | cons e es ih =>
    simp [liquidAtZeroOffset, framesAfter, ih, Bool.and_assoc]

theorem destFrameZero_append (f : Frames) (xs ys : List Event) :
    destFrameZero f (xs ++ ys) =
      (destFrameZero f xs && destFrameZero (framesAfter f xs) ys) := by
  induction xs generalizing f with
  | nil => simp [destFrameZero, framesAfter]
  | cons e es ih =>
    simp [destFrameZero, framesAfter, ih, Bool.and_assoc]

theorem liquidAtZeroOffset_blocks (mp : MixParams) :
    ∀ (ps : List (Transfer × String)) (f : Frames), f.dst = (0, 0, 0) →
      liquidAtZeroOffset f (blocks mp ps) = true ∧
        (framesAfter f (blocks mp ps)).dst = (0, 0, 0)
  | [], f, hdst => by simp [blocks, liquidAtZeroOffset, framesAfter, hdst]
  | p :: ps, f, hdst => by
    have h2 := framesAfter_transferBlock p.1 p.2 mp f
    have h3 := liquidAtZeroOffset_blocks mp ps (framesAfter f (transferBlock p.1 p.2 mp))
      (by rw [h2]; exact hdst)
    simp [blocks_cons, liquidAtZeroOffset_append, framesAfter_append,
      liquidAtZeroOffset_transferBlock p.1 p.2 mp f hdst, h3.1, h3.2]

theorem destFrameZero_blocks (mp : MixParams) :
    ∀ (ps : List (Transfer × String)) (f : Frames), f.dst = (0, 0, 0) →
      destFrameZero f (blocks mp ps) = true ∧
        (framesAfter f (blocks mp ps)).dst = (0, 0, 0)
  | [], f, hdst => by simp [blocks, destFrameZero, framesAfter, hdst]
  | p :: ps, f, hdst => by
    have h2 := framesAfter_transferBlock p.1 p.2 mp f
    have h3 := destFrameZero_blocks mp ps (framesAfter f (transferBlock p.1 p.2 mp))
      (by rw [h2]; exact hdst)
    simp [blocks_cons, destFrameZero_append, framesAfter_append,
      destFrameZero_transferBlock p.1 p.2 mp f hdst, h3.1, h3.2]

theorem noOffsetOn_dest_blocks (mp : MixParams) :
    ∀ ps : List (Transfer × String), noOffsetOn Plate.dest (blocks mp ps) = true
  | [] => by simp [blocks, noOffsetOn]
  | p :: ps => by
    have h1 := noOffsetOn_dest_transferBlock p.1 p.2 mp
    have h2 := noOffsetOn_dest_blocks mp ps
    simp only [blocks_cons, noOffsetOn] at h1 h2 ⊢
    rw [List.all_append, h1, h2]; rfl

theorem aspiratesAtSourceBottomZero_blocks (mp : MixParams) :
    ∀ ps : List (Transfer × String), aspiratesAtSourceBottomZero (blocks mp ps) = true
  | [] => by simp [blocks, aspiratesAtSourceBottomZero]
  | p :: ps => by
    have h1 := aspiratesAtSourceBottomZero_transferBlock p.1 p.2 mp
    have h2 := aspiratesAtSourceBottomZero_blocks mp ps
    simp only [blocks_cons, aspiratesAtSourceBottomZero] at h1 h2 ⊢
    rw [List.all_append, h1, h2]; rfl

theorem mixesAtDepth_blocks (mp : MixParams) :
    ∀ ps : List (Transfer × String), mixesAtDepth mp.mm_from_bottom (blocks mp ps) = true
  | [] => by simp [blocks, mixesAtDepth]
  | p :: ps => by
    have h1 := mixesAtDepth_transferBlock p.1 p.2 mp
    have h2 := mixesAtDepth_blocks mp ps
    simp only [blocks_cons, mixesAtDepth] at h1 h2 ⊢
    rw [List.all_append, h1, h2]; rfl

/-!
Compass-pattern facts and run-level helper lemmas.
-/

theorem mixOffsets_compass (plate : Plate) (well : String) (n : ℕ) (r vol depth rate : ℚ) :
    mixOffsetsFrom zeroFrames (compass_mix_pattern plate well n r vol depth rate) =
      [(0, 0, 0), (0, r, 0), (0, -r, 0), (r, 0, 0), (-r, 0, 0)] := by
  cases plate <;>
    simp [compass_mix_pattern, mixOffsetsFrom, stepFrame, zeroFrames, Frames.get, zero_sub]

theorem filter_isMix_compass (plate : Plate) (well : String) (n : ℕ) (r vol depth rate : ℚ) :
    (compass_mix_pattern plate well n r vol depth rate).filter isMix =
      List.replicate 5 (Event.mix n vol plate well (WellPos.bottom depth) rate) := by
  simp [compass_mix_pattern, isMix, List.filter, List.replicate]

theorem getLast_compass (plate : Plate) (well : String) (n : ℕ) (r vol depth rate : ℚ) :
    (compass_mix_pattern plate well n r vol depth rate).getLast? =
      some (Event.setOffset plate 0 0 0) := by
  simp [compass_mix_pattern, List.getLast?]

theorem framesAfter_compass (plate : Plate) (well : String) (n : ℕ) (r vol depth rate : ℚ) :
    framesAfter zeroFrames (compass_mix_pattern plate well n r vol depth rate) = zeroFrames := by
  cases plate <;>
    simp [compass_mix_pattern, framesAfter, stepFrame, zeroFrames]

theorem run_success (transfers : List Transfer) (tips : List String) (mp : MixParams)
    (hlen : transfers.length ≤ tips.length) :
    run transfers tips mp = (blocks mp (transfers.zip tips) ++ [Event.home], none) := by
  rw [run_eq, if_pos hlen]

theorem run_abort (transfers : List Transfer) (tips : List String) (mp : MixParams)
    (hlt : tips.length < transfers.length) :
    run transfers tips mp =
      (blocks mp (transfers.zip tips), some RunError.tipExhausted) := by
  rw [run_eq, if_neg (by omega)]

theorem liquidAtZeroOffset_run (transfers : List Transfer) (tips : List String) (mp : MixParams) :
    liquidAtZeroOffset zeroFrames (run transfers tips mp).1 = true := by
  have h := liquidAtZeroOffset_blocks mp (transfers.zip tips) zeroFrames rfl
  rw [run_eq]
  by_cases hlen : transfers.length ≤ tips.length
  · simp only [if_pos hlen]
    rw [liquidAtZeroOffset_append, h.1]
    simp [liquidAtZeroOffset]
  · simp only [if_neg hlen]
    exact h.1

theorem destFrameZero_run (transfers : List Transfer) (tips : List String) (mp : MixParams) :
    destFrameZero zeroFrames (run transfers tips mp).1 = true := by
  have h := destFrameZero_blocks mp (transfers.zip tips) zeroFrames rfl
  rw [run_eq]
  by_cases hlen : transfers.length ≤ tips.length
  · simp only [if_pos hlen]
    rw [destFrameZero_append, h.1]
    simp [destFrameZero, stepFrame, h.2]
  · simp only [if_neg hlen]
    exact h.1

theorem noOffsetOn_dest_run (transfers : List Transfer) (tips : List String) (mp : MixParams) :
    noOffsetOn Plate.dest (run transfers tips mp).1 = true := by
  have h := noOffsetOn_dest_blocks mp (transfers.zip tips)
  rw [run_eq]
  by_cases hlen : transfers.length ≤ tips.length
  · simp only [if_pos hlen, noOffsetOn] at h ⊢
    rw [List.all_append, h]
    simp
  · simp only [if_neg hlen]
    exact h

theorem aspiratesAtSourceBottomZero_run (transfers : List Transfer) (tips : List String)
    (mp : MixParams) :
    aspiratesAtSourceBottomZero (run transfers tips mp).1 = true := by
  have h := aspiratesAtSourceBottomZero_blocks mp (transfers.zip tips)
  rw [run_eq]
  by_cases hlen : transfers.length ≤ tips.length
  · simp only [if_pos hlen, aspiratesAtSourceBottomZero] at h ⊢
    rw [List.all_append, h]
    simp
  · simp only [if_neg hlen]
    exact h

theorem mixesAtDepth_run (transfers : List Transfer) (tips : List String) (mp : MixParams) :
    mixesAtDepth mp.mm_from_bottom (run transfers tips mp).1 = true := by
  have h := mixesAtDepth_blocks mp (transfers.zip tips)
  rw [run_eq]
  by_cases hlen : transfers.length ≤ tips.length
  · simp only [if_pos hlen, mixesAtDepth] at h ⊢
    rw [List.all_append, h]
    simp
  · simp only [if_neg hlen]
    exact h

theorem pickUps_run_success (transfers : List Transfer) (tips : List String) (mp : MixParams)
    (hlen : transfers.length ≤ tips.length) :
    pickUps (run transfers tips mp).1 = tips.take transfers.length := by
  rw [run_success transfers tips mp hlen, pickUps_append, pickUps_blocks, map_snd_zip_take]
  simp [pickUps]

theorem pickUps_run_abort (transfers : List Transfer) (tips : List String) (mp : MixParams)
    (hlt : tips.length < transfers.length) :
    pickUps (run transfers tips mp).1 = tips := by
  rw [run_abort transfers tips mp hlt]
  simp only [pickUps_blocks, map_snd_zip_take]
  exact List.take_of_length_le (by omega)

theorem countHome_run_success (transfers : List Transfer) (tips : List String) (mp : MixParams)
    (hlen : transfers.length ≤ tips.length) :
    countHome (run transfers tips mp).1 = 1 := by
  rw [run_success transfers tips mp hlen, countHome_append, countHome_blocks]
  simp [countHome, List.filter]

theorem countHome_run_abort (transfers : List Transfer) (tips : List String) (mp : MixParams)
    (hlt : tips.length < transfers.length) :
    countHome (run transfers tips mp).1 = 0 := by
  rw [run_abort transfers tips mp hlt]
  exact countHome_blocks mp (transfers.zip tips)

theorem getLast_run_success (transfers : List Transfer) (tips : List String) (mp : MixParams)
    (hlen : transfers.length ≤ tips.length) :
    (run transfers tips mp).1.getLast? = some Event.home := by
  rw [run_success transfers tips mp hlen]
  simp

/-!
Claim theorems.
-/

/-- A point of the compass pattern lies on a single axis at squared
Euclidean distance `r ^ 2` from the well center: the sum of the squares of
its coordinates is `r ^ 2` and two of its three coordinates vanish. -/
def onSingleAxisAt (v : ℚ × ℚ × ℚ) (r : ℚ) : Prop :=
  v.1 ^ 2 + v.2.1 ^ 2 + v.2.2 ^ 2 = r ^ 2 ∧
    ((v.2.1 = 0 ∧ v.2.2 = 0) ∨ (v.1 = 0 ∧ v.2.2 = 0) ∨ (v.1 = 0 ∧ v.2.1 = 0))

/-- C5: for every radius r ≥ 0 the compass mix performs exactly five mix
actions whose effective offsets from the well center are, in this fixed
order, center (0,0,0), north (0,r,0), south (0,-r,0), east (r,0,0),
west (-r,0,0); each non-center point lies on a single axis at Euclidean
distance r from the center (squared distance r², with r ≥ 0), and radius 0
degenerates all five points to the center without taking any error path. -/
theorem C5_compass_offsets (plate : Plate) (well : String) (n : ℕ)
    (r vol depth rate : ℚ) (hr : 0 ≤ r) :
    mixOffsetsFrom zeroFrames (compass_mix_pattern plate well n r vol depth rate) =
      [(0, 0, 0), (0, r, 0), (0, -r, 0), (r, 0, 0), (-r, 0, 0)] ∧
    (mixOffsetsFrom zeroFrames (compass_mix_pattern plate well n r vol depth rate)).length = 5 ∧
    (∀ v ∈ (mixOffsetsFrom zeroFrames
        (compass_mix_pattern plate well n r vol depth rate)).tail, onSingleAxisAt v r) ∧
    (r = 0 → mixOffsetsFrom zeroFrames (compass_mix_pattern plate well n r vol depth rate) =
      List.replicate 5 ((0 : ℚ), (0 : ℚ), (0 : ℚ))) := by
  refine ⟨mixOffsets_compass plate well n r vol depth rate, ?_, ?_, ?_⟩
  · rw [mixOffsets_compass]
    rfl
  · rw [mixOffsets_compass]
    intro v hv
    simp only [List.tail_cons, List.mem_cons, List.not_mem_nil, or_false] at hv
    rcases hv with rfl | rfl | rfl | rfl
    · exact ⟨by ring, Or.inr (Or.inl ⟨rfl, rfl⟩)⟩
    · exact ⟨by ring, Or.inr (Or.inl ⟨rfl, rfl⟩)⟩
    · exact ⟨by ring, Or.inl ⟨rfl, rfl⟩⟩
    · exact ⟨by ring, Or.inl ⟨rfl, rfl⟩⟩
  · intro h0
    subst h0
    rw [mixOffsets_compass]
    simp [List.replicate]

/-- C5 witness at the script's radius 7.5 mm. -/
theorem C5_compass_offsets_witness :
    (0 : ℚ) ≤ 7.5 ∧
    mixOffsetsFrom zeroFrames (compass_mix_pattern Plate.source "A1" 3 7.5 1000 2.5 5.5) =
      [(0, 0, 0), (0, 7.5, 0), (0, -7.5, 0), (7.5, 0, 0), (-7.5, 0, 0)] :=
  ⟨by norm_num,
   (C5_compass_offsets Plate.source "A1" 3 7.5 1000 2.5 5.5 (by norm_num)).1⟩

/-- C6: the mix sequence at a well is the five compass mix actions, in
order center, north, south, east, west (their effective offsets from a
zero frame), each a `mix` call with `num_mixes_at_each_point` cycles of
`volume` at `mm_from_bottom` from the well bottom at `mix_rate`; its final
step resets the plate's offset frame to (0,0,0), the frame state after the
sequence is again the zero frame, and in every run trace each aspirate and
dispense is issued while its plate's offset frame is (0,0,0). -/
theorem C6_mix_sequence_and_frame_reset :
    (∀ (plate : Plate) (well : String) (n : ℕ) (r vol depth rate : ℚ),
      countMix (compass_mix_pattern plate well n r vol depth rate) = 5 ∧
      (compass_mix_pattern plate well n r vol depth rate).filter isMix =
        List.replicate 5 (Event.mix n vol plate well (WellPos.bottom depth) rate) ∧
      mixOffsetsFrom zeroFrames (compass_mix_pattern plate well n r vol depth rate) =
        [(0, 0, 0), (0, r, 0), (0, -r, 0), (r, 0, 0), (-r, 0, 0)] ∧
      (compass_mix_pattern plate well n r vol depth rate).getLast? =
        some (Event.setOffset plate 0 0 0) ∧
      framesAfter zeroFrames (compass_mix_pattern plate well n r vol depth rate) = zeroFrames) ∧
    (∀ (transfers : List Transfer) (tips : List String) (mp : MixParams),
      liquidAtZeroOffset zeroFrames (run transfers tips mp).1 = true) := by
  constructor
  · intro plate well n r vol depth rate
    refine ⟨?_, filter_isMix_compass plate well n r vol depth rate,
      mixOffsets_compass plate well n r vol depth rate,
      getLast_compass plate well n r vol depth rate,
      framesAfter_compass plate well n r vol depth rate⟩
    rw [countMix, filter_isMix_compass]
    rfl
  · exact liquidAtZeroOffset_run

/-- C8: no `set_offset` of any run trace targets the destination plate,
and the destination plate's offset frame is (0,0,0) at the moment every
event of the trace is issued — in particular during every dispense. -/
theorem C8_destination_frame_untouched (transfers : List Transfer) (tips : List String)
    (mp : MixParams) :
    noOffsetOn Plate.dest (run transfers tips mp).1 = true ∧
    destFrameZero zeroFrames (run transfers tips mp).1 = true :=
  ⟨noOffsetOn_dest_run transfers tips mp, destFrameZero_run transfers tips mp⟩

/-- C10: within each transfer's block the single aspirate call targets the
source well's bottom with zero vertical offset, whatever the mix depth;
over every run trace all aspirates are at `bottom 0` of the source plate
while all mix actions are at `bottom mm_from_bottom`. -/
theorem C10_aspirate_height_independent_of_mix_depth :
    (∀ (t : Transfer) (tip : String) (mp : MixParams),
      (transferBlock t tip mp).filter isAspirate =
        [Event.aspirate t.volume_ul Plate.source t.source_well (WellPos.bottom 0)]) ∧
    (∀ (transfers : List Transfer) (tips : List String) (mp : MixParams),
      aspiratesAtSourceBottomZero (run transfers tips mp).1 = true ∧
      mixesAtDepth mp.mm_from_bottom (run transfers tips mp).1 = true) :=
  ⟨aspirates_transferBlock,
   fun transfers tips mp =>
     ⟨aspiratesAtSourceBottomZero_run transfers tips mp, mixesAtDepth_run transfers tips mp⟩⟩

/-- C3: with a tip queue of distinct tips shorter than the transfer list,
the run aborts with the tip-exhaustion error; its trace is exactly the
blocks of the first `tips.length` transfers paired with their tips — the
earlier transfers complete normally and no event of the first unmet
transfer (in particular no motion command) is ever issued — and the tips
picked up are exactly the queue, each allocated once. -/
theorem C3_tip_exhaustion_aborts (transfers : List Transfer) (tips : List String)
    (mp : MixParams) (hlt : tips.length < transfers.length) (hnd : tips.Nodup) :
    (run transfers tips mp).2 = some RunError.tipExhausted ∧
    (run transfers tips mp).1 = blocks mp (transfers.zip tips) ∧
    pickUps (run transfers tips mp).1 = tips ∧
    (pickUps (run transfers tips mp).1).Nodup := by
  refine ⟨?_, ?_, pickUps_run_abort transfers tips mp hlt, ?_⟩
  · rw [run_abort transfers tips mp hlt]
  · rw [run_abort transfers tips mp hlt]
  · rw [pickUps_run_abort transfers tips mp hlt]
    exact hnd

/-- C3 witness: the script's two transfers with the one-tip queue ["A1"]:
the run aborts with tip exhaustion, its trace is exactly the first
transfer's block (so the abort is after the first transfer and before the
second transfer's tip acquisition), and only tip "A1" was consumed. -/
theorem C3_tip_exhaustion_aborts_witness :
    (run TRANSFERS ["A1"] MIX_PARAMS).2 = some RunError.tipExhausted ∧
    (run TRANSFERS ["A1"] MIX_PARAMS).1 =
      transferBlock ⟨"A1", "A1", 1000⟩ "A1" MIX_PARAMS ∧
    pickUps (run TRANSFERS ["A1"] MIX_PARAMS).1 = ["A1"] :=
  ⟨(C3_tip_exhaustion_aborts TRANSFERS ["A1"] MIX_PARAMS (by decide) (by decide)).1,
   ((C3_tip_exhaustion_aborts TRANSFERS ["A1"] MIX_PARAMS (by decide) (by decide)).2.1).trans
     (by rfl),
   (C3_tip_exhaustion_aborts TRANSFERS ["A1"] MIX_PARAMS (by decide) (by decide)).2.2.1⟩

/-- C4: with a tip queue of distinct tips at least as long as the transfer
list, the run completes without error and the tips picked up are exactly
the first `transfers.length` entries of the queue in queue order — the
i-th transfer picks up the i-th tip — so exactly `transfers.length` tips
are consumed, each at most once, with no reordering or skipping. -/
theorem C4_fifo_tip_consumption (transfers : List Transfer) (tips : List String)
    (mp : MixParams) (hlen : transfers.length ≤ tips.length) (hnd : tips.Nodup) :
    (run transfers tips mp).2 = none ∧
    pickUps (run transfers tips mp).1 = tips.take transfers.length ∧
    (pickUps (run transfers tips mp).1).length = transfers.length ∧
    (pickUps (run transfers tips mp).1).Nodup := by
  have hp := pickUps_run_success transfers tips mp hlen
  refine ⟨?_, hp, ?_, ?_⟩
  · rw [run_success transfers tips mp hlen]
  · rw [hp, List.length_take]
    omega
  · rw [hp]
    exact List.Nodup.sublist (List.take_sublist _ _) hnd

/-- C4 witness: the script's two transfers and two tips: both tips are
consumed, in queue order A1 then B1, each once. -/
theorem C4_fifo_tip_consumption_witness :
    (run TRANSFERS TIPRACK_TIPS MIX_PARAMS).2 = none ∧
    pickUps (run TRANSFERS TIPRACK_TIPS MIX_PARAMS).1 = ["A1", "B1"] :=
  ⟨(C4_fifo_tip_consumption TRANSFERS TIPRACK_TIPS MIX_PARAMS (by decide) (by decide)).1,
   ((C4_fifo_tip_consumption TRANSFERS TIPRACK_TIPS MIX_PARAMS
      (by decide) (by decide)).2.1).trans (by rfl)⟩

/-- C9: `home` appears exactly once, as the final event, in the trace of a
run with enough tips; when the tip queue is shorter than the transfer list
the run aborts with tip exhaustion and `home` never appears in its trace. -/
theorem C9_home_only_on_completion (transfers : List Transfer) (tips : List String)
    (mp : MixParams) :
    (transfers.length ≤ tips.length →
      countHome (run transfers tips mp).1 = 1 ∧
      (run transfers tips mp).1.getLast? = some Event.home ∧
      (run transfers tips mp).2 = none) ∧
    (tips.length < transfers.length →
      countHome (run transfers tips mp).1 = 0 ∧
      (run transfers tips mp).2 = some RunError.tipExhausted) := by
  constructor
  · intro hlen
    refine ⟨countHome_run_success transfers tips mp hlen,
      getLast_run_success transfers tips mp hlen, ?_⟩
    rw [run_success transfers tips mp hlen]
  · intro hlt
    refine ⟨countHome_run_abort transfers tips mp hlt, ?_⟩
    rw [run_abort transfers tips mp hlt]

/-- C9 witness: with both tips the script's run homes exactly once; with
the one-tip queue it aborts un-homed. -/
theorem C9_home_only_on_completion_witness :
    countHome (run TRANSFERS TIPRACK_TIPS MIX_PARAMS).1 = 1 ∧
    countHome (run TRANSFERS ["A1"] MIX_PARAMS).1 = 0 :=
  ⟨((C9_home_only_on_completion TRANSFERS TIPRACK_TIPS MIX_PARAMS).1 (by decide)).1,
   ((C9_home_only_on_completion TRANSFERS ["A1"] MIX_PARAMS).2 (by decide)).1⟩

/-- C7: the script's concrete configuration — transfers A1→A1 and B1→B1 of
1000 µL, MIX_PARAMS volume 1000 / 3 repetitions / radius 7.5 / depth 2.5 /
rate 5.5, tips [A1, B1] — runs without error; exactly two tips are picked
up, A1 then B1; the trace is the two transfer blocks followed by one
`home`; each block holds five mix calls totalling 15 aspirate/dispense mix
cycles (3 × 5), exactly one dispense and one tip drop; `home` occurs
exactly once, as the last event. -/
theorem C7_concrete_scenario :
    (run TRANSFERS TIPRACK_TIPS MIX_PARAMS).2 = none ∧
    pickUps (run TRANSFERS TIPRACK_TIPS MIX_PARAMS).1 = ["A1", "B1"] ∧
    (run TRANSFERS TIPRACK_TIPS MIX_PARAMS).1 =
      transferBlock ⟨"A1", "A1", 1000⟩ "A1" MIX_PARAMS ++
        transferBlock ⟨"B1", "B1", 1000⟩ "B1" MIX_PARAMS ++ [Event.home] ∧
    countMix (transferBlock ⟨"A1", "A1", 1000⟩ "A1" MIX_PARAMS) = 5 ∧
    mixActionCount (transferBlock ⟨"A1", "A1", 1000⟩ "A1" MIX_PARAMS) = 15 ∧
    countDispense (transferBlock ⟨"A1", "A1", 1000⟩ "A1" MIX_PARAMS) = 1 ∧
    countDrop (transferBlock ⟨"A1", "A1", 1000⟩ "A1" MIX_PARAMS) = 1 ∧
    countMix (transferBlock ⟨"B1", "B1", 1000⟩ "B1" MIX_PARAMS) = 5 ∧
    mixActionCount (transferBlock ⟨"B1", "B1", 1000⟩ "B1" MIX_PARAMS) = 15 ∧
    countDispense (transferBlock ⟨"B1", "B1", 1000⟩ "B1" MIX_PARAMS) = 1 ∧
    countDrop (transferBlock ⟨"B1", "B1", 1000⟩ "B1" MIX_PARAMS) = 1 ∧
    countHome (run TRANSFERS TIPRACK_TIPS MIX_PARAMS).1 = 1 ∧
    (run TRANSFERS TIPRACK_TIPS MIX_PARAMS).1.getLast? = some Event.home :=
  ⟨rfl, rfl, rfl, rfl, rfl, rfl, rfl, rfl, rfl, rfl, rfl, rfl, rfl⟩

/-- C1 counterexample: the configuration with the script's two transfers
but a single tip "A1" is malformed by the claim's own criterion (tip queue
shorter than the transfer list), yet the run is not aborted before motion:
it picks up a tip, dispenses once — a full first transfer — and only then
fails with tip exhaustion.  The claimed pre-motion validation does not
exist in the code. -/
theorem C1_validation_counterexample :
    (run TRANSFERS ["A1"] MIX_PARAMS).2 = some RunError.tipExhausted ∧
    pickUps (run TRANSFERS ["A1"] MIX_PARAMS).1 = ["A1"] ∧
    countDispense (run TRANSFERS ["A1"] MIX_PARAMS).1 = 1 ∧
    (run TRANSFERS ["A1"] MIX_PARAMS).1 ≠ [] := by
  decide

/-- C1 amended: the run performs no configuration validation before
motion.  With a tip queue shorter than the transfer list the run starts
executing anyway: its trace is the full blocks of the first `tips.length`
transfers (partial execution, with motion commands issued whenever the
queue is non-empty), and the failure surfaces only as a tip-exhaustion
abort at the first unmet transfer. -/
theorem C1_amended_no_prevalidation (transfers : List Transfer) (tips : List String)
    (mp : MixParams) (hlt : tips.length < transfers.length) :
    (run transfers tips mp).2 = some RunError.tipExhausted ∧
    (run transfers tips mp).1 = blocks mp (transfers.zip tips) ∧
    (tips ≠ [] → (run transfers tips mp).1 ≠ []) := by
  refine ⟨?_, ?_, ?_⟩
  · rw [run_abort transfers tips mp hlt]
  · rw [run_abort transfers tips mp hlt]
  · intro hne
    rw [run_abort transfers tips mp hlt]
    cases transfers with
    | nil => simp at hlt
    | cons t ts =>
      cases tips with
      | nil => exact absurd rfl hne
      | cons tip rest => simp [blocks_cons, transferBlock]

/-- C1 amended witness at the script's transfers with the one-tip queue. -/
theorem C1_amended_no_prevalidation_witness :
    (run TRANSFERS ["A1"] MIX_PARAMS).2 = some RunError.tipExhausted ∧
    (run TRANSFERS ["A1"] MIX_PARAMS).1 ≠ [] :=
  ⟨(C1_amended_no_prevalidation TRANSFERS ["A1"] MIX_PARAMS (by decide)).1,
   (C1_amended_no_prevalidation TRANSFERS ["A1"] MIX_PARAMS (by decide)).2.2 (by decide)⟩

/-- C2: evaluation at a transfer whose source and destination labels
differ (source A1, destination B1).  The aspirate from the source well is
trace index 12 of the run; the very next command, index 13, is
`source_plate[dest_well].top(2)`: a move to an elevated point above well
B1 of the source plate, not above the source well A1 as the claim states.
The final conjunct shows this holds for every transfer: the post-aspirate
hop always resolves the destination label on the source plate, which
coincides with the source well only when the two labels are equal. -/
theorem C2_intermediate_hop_uses_dest_label :
    (run [⟨"A1", "B1", 100⟩] ["A1"] MIX_PARAMS).1[12]? =
      some (Event.aspirate 100 Plate.source "A1" (WellPos.bottom 0)) ∧
    (run [⟨"A1", "B1", 100⟩] ["A1"] MIX_PARAMS).1[13]? =
      some (Event.moveTo Plate.source "B1" (WellPos.top 2)) ∧
    Event.moveTo Plate.source "B1" (WellPos.top 2) ≠
      Event.moveTo Plate.source "A1" (WellPos.top 2) ∧
    (∀ (t : Transfer) (tip : String) (mp : MixParams),
      (transferBlock t tip mp)[13]? =
        some (Event.moveTo Plate.source t.dest_well (WellPos.top 2))) := by
  refine ⟨by decide, by decide, by decide, ?_⟩
  intro t tip mp
  rfl

end CompassPattern
